import Mathlib

/-!
Verification of the taxdraft-backend computation core (src/main.py).

All monetary quantities are modelled as rationals (the Python code uses
floats over which the spec reasons as exact real arithmetic).  Each
definition below is a direct translation of the correspondingly named
Python function in src/main.py; rendering-only code (openpyxl calls,
HTTP glue) is not modelled.
-/

namespace TaxDraft

/-- Filer metadata (class Meta in src/main.py): opaque strings. -/
structure Meta where
  business_name : String
  proprietor_name : String
  pan : String
  dob : String
  fy : String
deriving DecidableEq

/-- Per-year financial figures (class YearIn in src/main.py): 24 numeric
fields, each defaulting to zero. -/
structure YearIn where
  turnover : ℚ := 0
  other_income : ℚ := 0
  opening_stock : ℚ := 0
  purchases : ℚ := 0
  return_inwards : ℚ := 0
  return_outwards : ℚ := 0
  carriage_inward : ℚ := 0
  closing_stock : ℚ := 0
  salaries : ℚ := 0
  rent_utilities : ℚ := 0
  admin_misc : ℚ := 0
  depreciation_it : ℚ := 0
  finance_costs : ℚ := 0
  other_expenses : ℚ := 0
  capital_open : ℚ := 0
  additional_investment : ℚ := 0
  drawings : ℚ := 0
  loans : ℚ := 0
  payables : ℚ := 0
  receivables : ℚ := 0
  fixed_assets : ℚ := 0
  cash_bank : ℚ := 0
  other_assets : ℚ := 0
  other_liab : ℚ := 0
deriving DecidableEq

/-- Request payload (class ExcelRequest in src/main.py). -/
structure ExcelRequest where
  meta : Meta
  y1 : YearIn
  y2 : Option YearIn := none
  auto_growth : Bool := false
  growth_pct : ℚ := 10
  enforce_continuity : Bool := true
deriving DecidableEq

/-- round_inr in src/main.py: Python round() on a float value, i.e.
round to the nearest integer with ties going to the even integer. -/
def round_inr (x : ℚ) : ℚ :=
  if x - (Int.floor x : ℚ) < 1/2 then (Int.floor x : ℚ)
  else if 1/2 < x - (Int.floor x : ℚ) then (Int.floor x : ℚ) + 1
  else if (2 : ℤ) ∣ Int.floor x then (Int.floor x : ℚ) else (Int.floor x : ℚ) + 1

/-- apply_growth in src/main.py: scale every field of a YearIn by
1 + g/100. -/
def apply_growth (base : YearIn) (g : ℚ) : YearIn :=
  let f : ℚ := 1 + g/100
  { turnover := base.turnover * f
    other_income := base.other_income * f
    opening_stock := base.opening_stock * f
    purchases := base.purchases * f
    return_inwards := base.return_inwards * f
    return_outwards := base.return_outwards * f
    carriage_inward := base.carriage_inward * f
    closing_stock := base.closing_stock * f
    salaries := base.salaries * f
    rent_utilities := base.rent_utilities * f
    admin_misc := base.admin_misc * f
    depreciation_it := base.depreciation_it * f
    finance_costs := base.finance_costs * f
    other_expenses := base.other_expenses * f
    capital_open := base.capital_open * f
    additional_investment := base.additional_investment * f
    drawings := base.drawings * f
    loans := base.loans * f
    payables := base.payables * f
    receivables := base.receivables * f
    fixed_assets := base.fixed_assets * f
    cash_bank := base.cash_bank * f
    other_assets := base.other_assets * f
    other_liab := base.other_liab * f }

/-- Result dictionary of compute_profit in src/main.py. -/
structure ProfitResult where
  net_sales : ℚ
  cogs : ℚ
  gross_profit : ℚ
  indirect_exp : ℚ
  net_profit : ℚ
deriving DecidableEq

/-- compute_profit in src/main.py. -/
def compute_profit (y : YearIn) : ProfitResult :=
  let net_purchases := y.purchases - y.return_outwards
  let net_sales := y.turnover - y.return_inwards
  let cogs := y.opening_stock + net_purchases + y.carriage_inward - y.closing_stock
  let gross_profit := net_sales - cogs
  let indirect_exp := y.salaries + y.rent_utilities + y.admin_misc +
    y.depreciation_it + y.finance_costs + y.other_expenses
  let net_profit := gross_profit + y.other_income - indirect_exp
  { net_sales := net_sales, cogs := cogs, gross_profit := gross_profit,
    indirect_exp := indirect_exp, net_profit := net_profit }

/-- The slab table hard-coded in simple_tax in src/main.py: the last
"remainder" slab is implemented with the finite width 10^18. -/
def slabs : List (ℚ × ℚ) :=
  [(300000, 0), (400000, 5/100), (300000, 10/100),
   (200000, 15/100), (300000, 20/100), (10^18, 30/100)]

/-- The slab-walk loop of simple_tax in src/main.py: consume the slabs
in order, taxing min(remaining, width) at each slab's rate, breaking
as soon as the remaining income is ≤ 0. -/
def slab_walk : List (ℚ × ℚ) → ℚ → ℚ
  | [], _ => 0
  | (w, r) :: rest, rem =>
      min rem w * r +
        (if rem - min rem w ≤ 0 then 0 else slab_walk rest (rem - min rem w))

/-- Result dictionary of simple_tax in src/main.py. -/
structure TaxResult where
  tax : ℚ
  cess : ℚ
  total : ℚ
deriving DecidableEq

/-- simple_tax in src/main.py: clamp income to ≥ 0, walk the slab
table, cess = 4% of the tax, all three outputs rounded. -/
def simple_tax (total_income : ℚ) : TaxResult :=
  let TI := max 0 total_income
  let t := slab_walk slabs TI
  let cess := (4/100) * t
  { tax := round_inr t, cess := round_inr cess, total := round_inr (t + cess) }

/-- Sum of the amount column of a labelled-amount list. -/
def sumAmts (rows : List (String × ℚ)) : ℚ :=
  (rows.map Prod.snd).sum

/-- Result of pl_t_format in src/main.py. -/
structure PLStmt where
  dr : List (String × ℚ)
  cr : List (String × ℚ)
  net_profit : ℚ
deriving DecidableEq

/-- pl_t_format in src/main.py: the two-sided trading / profit-and-loss
statement, with a net-profit or gross-profit plug on the smaller side. -/
def pl_t_format (y : YearIn) : PLStmt :=
  let numbers := compute_profit y
  let dr : List (String × ℚ) :=
    [("To Opening Stock", y.opening_stock),
     ("To Purchases", y.purchases),
     ("(-) Return Outwards", -y.return_outwards),
     ("To Carriage Inward", y.carriage_inward),
     ("To Salaries", y.salaries),
     ("To Rent & Utilities", y.rent_utilities),
     ("To Admin & Misc", y.admin_misc),
     ("To Finance Costs", y.finance_costs),
     ("To Depreciation (IT)", y.depreciation_it),
     ("To Other Expenses", y.other_expenses)]
  let cr : List (String × ℚ) :=
    [("By Sales", y.turnover),
     ("(-) Return Inwards", -y.return_inwards),
     ("By Closing Stock", y.closing_stock),
     ("By Other Income", y.other_income)]
  let total_dr := sumAmts dr
  let total_cr := sumAmts cr
  if total_dr ≤ total_cr then
    { dr := dr ++ [("To Net Profit", total_cr - total_dr)], cr := cr,
      net_profit := numbers.net_profit }
  else
    { dr := dr, cr := cr ++ [("By Gross Profit", total_dr - total_cr)],
      net_profit := numbers.net_profit }

/-- Result of capital_t_format in src/main.py. -/
structure CapitalStmt where
  dr : List (String × ℚ)
  cr : List (String × ℚ)
  closing : ℚ
deriving DecidableEq

/-- capital_t_format in src/main.py: credit side = opening balance,
profit, additional investment; debit side = drawings plus a closing
balance entry, where closing = max(0, credits − debits). -/
def capital_t_format (opening profit addl_invest drawings : ℚ) : CapitalStmt :=
  let cr : List (String × ℚ) :=
    [("By Opening Balance", opening),
     ("By Profit", profit),
     ("By Additional Investment", addl_invest)]
  let dr : List (String × ℚ) := [("To Drawings", drawings)]
  let tot_cr := sumAmts cr
  let tot_dr := sumAmts dr
  let closing := max 0 (tot_cr - tot_dr)
  { dr := dr ++ [("To Closing Balance", closing)], cr := cr, closing := closing }

/-- Result of balance_sheet_t_format in src/main.py. -/
structure BalanceSheet where
  liabilities : List (String × ℚ)
  assets : List (String × ℚ)
deriving DecidableEq

/-- The liabilities side of balance_sheet_t_format before balancing. -/
def bs_liab_raw (capital : ℚ) (y : YearIn) : List (String × ℚ) :=
  [("Capital", capital),
   ("Loans", y.loans),
   ("Payables", y.payables),
   ("Other Liabilities", y.other_liab)]

/-- The assets side of balance_sheet_t_format before balancing. -/
def bs_assets_raw (y : YearIn) : List (String × ℚ) :=
  [("Fixed Assets", y.fixed_assets),
   ("Inventory", y.closing_stock),
   ("Receivables", y.receivables),
   ("Cash/Bank", y.cash_bank),
   ("Other Assets", y.other_assets)]

/-- balance_sheet_t_format in src/main.py: when the two natural sums
differ, append a single balancing entry to the smaller side. -/
def balance_sheet_t_format (capital : ℚ) (y : YearIn) : BalanceSheet :=
  let liabilities := bs_liab_raw capital y
  let assets := bs_assets_raw y
  let tot_l := sumAmts liabilities
  let tot_a := sumAmts assets
  if tot_a < tot_l then
    { liabilities := liabilities,
      assets := assets ++ [("Balancing Figure (Assets)", tot_l - tot_a)] }
  else if tot_l < tot_a then
    { liabilities := liabilities ++ [("Balancing Figure (Liabilities)", tot_a - tot_l)],
      assets := assets }
  else
    { liabilities := liabilities, assets := assets }

/-- Year-2 resolution in generate_excel (src/main.py): when no Year-2
is supplied and auto_growth is set, generate it from Year-1 at
growth_pct. -/
def resolve_y2 (p : ExcelRequest) : Option YearIn :=
  match p.y2 with
  | some y => some y
  | none => if p.auto_growth then some (apply_growth p.y1 p.growth_pct) else none

/-- The continuity rule of generate_excel (src/main.py): when a Year-2
is present and enforce_continuity is set, its opening_stock is
overwritten with Year-1's closing_stock. -/
def continuity_y2 (p : ExcelRequest) : Option YearIn :=
  match resolve_y2 p with
  | some y =>
      if p.enforce_continuity then some { y with opening_stock := p.y1.closing_stock }
      else some y
  | none => none

/-- np1 in generate_excel: Year-1's rounded net profit. -/
def np1 (p : ExcelRequest) : ℚ := round_inr (pl_t_format p.y1).net_profit

/-- cap1 in generate_excel: Year-1's capital statement. -/
def cap1 (p : ExcelRequest) : CapitalStmt :=
  capital_t_format p.y1.capital_open (np1 p) p.y1.additional_investment p.y1.drawings

/-- The opening-capital value generate_excel feeds into Year-2's
capital statement: Year-1's closing capital under continuity,
otherwise the supplied Year-2 capital_open. -/
def year2_opening_capital (p : ExcelRequest) : Option ℚ :=
  (continuity_y2 p).map
    (fun y => if p.enforce_continuity then (cap1 p).closing else y.capital_open)

/-- All derived numeric results of one generate_excel invocation. -/
structure PipelineResult where
  pl1 : PLStmt
  cap1 : CapitalStmt
  bs1 : BalanceSheet
  tax1 : TaxResult
  y2 : Option YearIn
  pl2 : Option PLStmt
  cap2 : Option CapitalStmt
  bs2 : Option BalanceSheet
  tax2 : Option TaxResult
deriving DecidableEq

/-- The numeric core of generate_excel in src/main.py: Year-2
resolution and continuity, then per year the trading / profit-and-loss
statement, capital statement, balance sheet and tax computation. -/
def full_pipeline (p : ExcelRequest) : PipelineResult :=
  let pl1 := pl_t_format p.y1
  let c1 := cap1 p
  let bs1 := balance_sheet_t_format c1.closing p.y1
  let tax1 := simple_tax (np1 p)
  match continuity_y2 p, year2_opening_capital p with
  | some y, some oc =>
      let pl2 := pl_t_format y
      let np2 := round_inr pl2.net_profit
      let cap2 := capital_t_format oc np2 y.additional_investment y.drawings
      let bs2 := balance_sheet_t_format cap2.closing y
      { pl1 := pl1, cap1 := c1, bs1 := bs1, tax1 := tax1,
        y2 := some y, pl2 := some pl2, cap2 := some cap2,
        bs2 := some bs2, tax2 := some (simple_tax np2) }
  | _, _ =>
      { pl1 := pl1, cap1 := c1, bs1 := bs1, tax1 := tax1,
        y2 := none, pl2 := none, cap2 := none, bs2 := none, tax2 := none }

/-- The five finite slabs of the table in §4.5 of the spec; the spec
ends the table with an unbounded remainder slab at 30%. -/
def spec_slabs : List (ℚ × ℚ) :=
  [(300000, 0), (400000, 5/100), (300000, 10/100),
   (200000, 15/100), (300000, 20/100)]

/-- Slab walk that also returns the income left over after the walk:
same consumption and early stop as slab_walk. -/
def slab_walk_rem : List (ℚ × ℚ) → ℚ → ℚ × ℚ
  | [], rem => (0, rem)
  | (w, r) :: rest, rem =>
      if rem - min rem w ≤ 0 then (min rem w * r, rem - min rem w)
      else
        (min rem w * r + (slab_walk_rem rest (rem - min rem w)).1,
         (slab_walk_rem rest (rem - min rem w)).2)

/-- The tax calculator exactly as the claim words it: clamp income to
max(0, I), walk the five finite slabs in order taxing
min(remaining, width) × rate, then tax the whole remainder at 30%;
cess = 4% of the tax, total = tax + cess, all outputs rounded. -/
def simple_tax_spec (total_income : ℚ) : TaxResult :=
  let TI := max 0 total_income
  let walk := slab_walk_rem spec_slabs TI
  let t := walk.1 + walk.2 * (30/100)
  let cess := (4/100) * t
  { tax := round_inr t, cess := round_inr cess, total := round_inr (t + cess) }

/-- A concrete filer used to instantiate universally quantified
results. -/
def sample_meta : Meta :=
  { business_name := "Biz", proprietor_name := "Owner", pan := "PAN123",
    dob := "1990-01-01", fy := "2024-25" }

/-- A concrete Year-1: closing stock 80,000, everything else zero. -/
def sample_y1 : YearIn := { closing_stock := 80000 }

/-- A concrete supplied Year-2 whose opening stock (999) disagrees
with Year-1's closing stock. -/
def sample_y2 : YearIn := { opening_stock := 999 }

/-- A concrete request with both years supplied and continuity
enabled. -/
def sample_request : ExcelRequest :=
  { meta := sample_meta, y1 := sample_y1, y2 := some sample_y2,
    auto_growth := false, growth_pct := 10, enforce_continuity := true }

/-! ### Helper lemmas -/

lemma sub_min_eq_max (rem w : ℚ) : rem - min rem w = max (rem - w) 0 := by
  rcases le_total rem w with h | h
  · rw [min_eq_left h, max_eq_right (by linarith : rem - w ≤ (0:ℚ))]
    ring
  · rw [min_eq_right h, max_eq_left (by linarith : (0:ℚ) ≤ rem - w)]

lemma slab_walk_nonneg (L : List (ℚ × ℚ)) (hL : ∀ q ∈ L, 0 ≤ q.1 ∧ 0 ≤ q.2) :
    ∀ rem, 0 ≤ rem → 0 ≤ slab_walk L rem := by
  induction L with
  | nil => intro rem _; simp [slab_walk]
  | cons p rest ih =>
    intro rem hrem
    obtain ⟨w, r⟩ := p
    have hw : 0 ≤ w := (hL (w, r) (List.mem_cons_self _ _)).1
    have hr : 0 ≤ r := (hL (w, r) (List.mem_cons_self _ _)).2
    have hrest : ∀ q ∈ rest, 0 ≤ q.1 ∧ 0 ≤ q.2 :=
      fun q hq => hL q (List.mem_cons_of_mem _ hq)
    have h1 : 0 ≤ min rem w := le_min hrem hw
    have h2 : 0 ≤ min rem w * r := mul_nonneg h1 hr
    have h3 : 0 ≤ rem - min rem w := sub_nonneg.mpr (min_le_left _ _)
    simp only [slab_walk]
    split_ifs with hc
    · linarith
    · have := ih hrest _ h3
      linarith

lemma slab_walk_mono (L : List (ℚ × ℚ)) (hL : ∀ q ∈ L, 0 ≤ q.1 ∧ 0 ≤ q.2) :
    ∀ a b, 0 ≤ a → a ≤ b → slab_walk L a ≤ slab_walk L b := by
  induction L with
  | nil => intro a b _ _; simp [slab_walk]
  | cons p rest ih =>
    intro a b ha hab
    obtain ⟨w, r⟩ := p
    have hr : 0 ≤ r := (hL (w, r) (List.mem_cons_self _ _)).2
    have hrest : ∀ q ∈ rest, 0 ≤ q.1 ∧ 0 ≤ q.2 :=
      fun q hq => hL q (List.mem_cons_of_mem _ hq)
    have hmin : min a w ≤ min b w := min_le_min hab le_rfl
    have hterm : min a w * r ≤ min b w * r := mul_le_mul_of_nonneg_right hmin hr
    have hsub : a - min a w ≤ b - min b w := by
      rw [sub_min_eq_max, sub_min_eq_max]
      exact max_le_max (by linarith) le_rfl
    have hsa : 0 ≤ a - min a w := sub_nonneg.mpr (min_le_left _ _)
    have hsb : 0 ≤ b - min b w := sub_nonneg.mpr (min_le_left _ _)
    simp only [slab_walk]
    split_ifs with hca hcb hcb
    · linarith
    · have := slab_walk_nonneg rest hrest _ hsb
      linarith
    · linarith
    · have := ih hrest _ _ hsa hsub
      linarith

lemma slab_walk_ge_sum (L : List (ℚ × ℚ)) (hL : ∀ q ∈ L, 0 < q.1) :
    ∀ rem, (L.map Prod.fst).sum ≤ rem →
      slab_walk L rem = (L.map (fun q => q.1 * q.2)).sum := by
  induction L with
  | nil => intro rem _; simp [slab_walk]
  | cons p rest ih =>
    intro rem hrem
    obtain ⟨w, r⟩ := p
    have hw : 0 < w := hL (w, r) (List.mem_cons_self _ _)
    have hrest : ∀ q ∈ rest, 0 < q.1 :=
      fun q hq => hL q (List.mem_cons_of_mem _ hq)
    simp only [List.map_cons, List.sum_cons] at hrem ⊢
    have hs : 0 ≤ (rest.map Prod.fst).sum := by
      apply List.sum_nonneg
      intro x hx
      obtain ⟨q, hq, rfl⟩ := List.mem_map.mp hx
      exact le_of_lt (hrest q hq)
    have hwle : w ≤ rem := by linarith
    have hmin : min rem w = w := min_eq_right hwle
    simp only [slab_walk, hmin]
    by_cases hc : rem - w ≤ 0
    · rw [if_pos hc]
      cases rest with
      | nil => simp
      | cons q rest2 =>
        exfalso
        have hq : 0 < q.1 := hrest q (List.mem_cons_self _ _)
        have hs2 : 0 ≤ (rest2.map Prod.fst).sum := by
          apply List.sum_nonneg
          intro x hx
          obtain ⟨q2, hq2, rfl⟩ := List.mem_map.mp hx
          exact le_of_lt (hrest q2 (List.mem_cons_of_mem _ hq2))
        simp only [List.map_cons, List.sum_cons] at hrem
        linarith
    · rw [if_neg hc, ih hrest _ (by linarith)]

lemma slab_walk_eq_rem_fst : ∀ (L : List (ℚ × ℚ)) (rem : ℚ),
    slab_walk L rem = (slab_walk_rem L rem).1 := by
  intro L
  induction L with
  | nil => intro rem; simp [slab_walk, slab_walk_rem]
  | cons p rest ih =>
    intro rem
    obtain ⟨w, r⟩ := p
    simp only [slab_walk, slab_walk_rem]
    by_cases hc : rem - min rem w ≤ 0
    · rw [if_pos hc, if_pos hc]
      simp
    · rw [if_neg hc, if_neg hc, ih]

lemma slab_walk_append_last (W r : ℚ) (hW : 0 ≤ W) :
    ∀ (L : List (ℚ × ℚ)) (rem : ℚ),
      slab_walk (L ++ [(W, r)]) rem =
        (slab_walk_rem L rem).1 + min (slab_walk_rem L rem).2 W * r := by
  intro L
  induction L with
  | nil =>
    intro rem
    simp [slab_walk, slab_walk_rem]
  | cons p rest ih =>
    intro rem
    obtain ⟨w, r1⟩ := p
    simp only [List.cons_append, slab_walk, slab_walk_rem]
    by_cases hc : rem - min rem w ≤ 0
    · rw [if_pos hc, if_pos hc]
      have h0 : rem - min rem w = 0 :=
        le_antisymm hc (sub_nonneg.mpr (min_le_left _ _))
      simp only [h0]
      rw [min_eq_left hW]
      ring
    · rw [if_neg hc, if_neg hc]
      simp only [List.append_eq]
      rw [ih]
      ring

lemma slab_walk_rem_snd_le : ∀ (L : List (ℚ × ℚ)) (rem : ℚ),
    (slab_walk_rem L rem).2 ≤ max (rem - (L.map Prod.fst).sum) 0 := by
  intro L
  induction L with
  | nil =>
    intro rem
    simp only [slab_walk_rem, List.map_nil, List.sum_nil, sub_zero]
    exact le_max_left _ _
  | cons p rest ih =>
    intro rem
    obtain ⟨w, r⟩ := p
    simp only [slab_walk_rem, List.map_cons, List.sum_cons]
    by_cases hc : rem - min rem w ≤ 0
    · rw [if_pos hc]
      exact le_trans hc (le_max_right _ _)
    · rw [if_neg hc]
      have hmin : min rem w = w := by
        rcases le_total rem w with h | h
        · exact absurd (by rw [min_eq_left h]; linarith) hc
        · exact min_eq_right h
      have heq : rem - min rem w - (rest.map Prod.fst).sum
          = rem - (w + (rest.map Prod.fst).sum) := by
        rw [hmin]; ring
      calc (slab_walk_rem rest (rem - min rem w)).2
          ≤ max (rem - min rem w - (rest.map Prod.fst).sum) 0 := ih _
        _ = max (rem - (w + (rest.map Prod.fst).sum)) 0 := by rw [heq]

lemma slabs_nonneg : ∀ q ∈ slabs, 0 ≤ q.1 ∧ 0 ≤ q.2 := by
  intro q hq
  fin_cases hq <;> norm_num

lemma slabs_pos_width : ∀ q ∈ slabs, 0 < q.1 := by
  intro q hq
  fin_cases hq <;> norm_num

lemma slabs_eq_append : slabs = spec_slabs ++ [(10^18, 30/100)] := rfl

lemma slabs_width_sum : (slabs.map Prod.fst).sum = 1500000 + 10^18 := by
  norm_num [slabs]

lemma slabs_tax_sum : (slabs.map (fun q => q.1 * q.2)).sum = 300000000000140000 := by
  norm_num [slabs]

lemma spec_slabs_width_sum : (spec_slabs.map Prod.fst).sum = 1500000 := by
  norm_num [spec_slabs]

lemma slab_walk_saturate (rem : ℚ) (h : 1500000 + 10^18 ≤ rem) :
    slab_walk slabs rem = 300000000000140000 := by
  rw [slab_walk_ge_sum slabs slabs_pos_width rem (by rw [slabs_width_sum]; exact h),
    slabs_tax_sum]

lemma round_inr_le_floor_add_one (x : ℚ) : round_inr x ≤ (Int.floor x : ℚ) + 1 := by
  unfold round_inr
  split_ifs <;> linarith

lemma floor_le_round_inr (x : ℚ) : (Int.floor x : ℚ) ≤ round_inr x := by
  unfold round_inr
  split_ifs <;> linarith

lemma round_inr_mono {x y : ℚ} (h : x ≤ y) : round_inr x ≤ round_inr y := by
  rcases lt_or_le (Int.floor x) (Int.floor y) with hf | hf
  · have h1 : (Int.floor x : ℚ) + 1 ≤ (Int.floor y : ℚ) := by
      have := Int.add_one_le_iff.mpr hf
      exact_mod_cast this
    calc round_inr x ≤ (Int.floor x : ℚ) + 1 := round_inr_le_floor_add_one x
      _ ≤ (Int.floor y : ℚ) := h1
      _ ≤ round_inr y := floor_le_round_inr y
  · have hf' : Int.floor x = Int.floor y := le_antisymm (Int.floor_le_floor h) hf
    unfold round_inr
    rw [hf']
    split_ifs <;> linarith

/-! ### Claim theorems -/

/-- C5: compute_profit satisfies the stated accounting identities:
net sales, cost of goods sold, gross profit, total indirect expenses
and net profit are exactly the claimed arithmetic combinations of the
input fields, for every YearFigures including negative ones; the
function is total by construction. -/
theorem compute_profit_correct (y : YearIn) :
    (compute_profit y).net_sales = y.turnover - y.return_inwards ∧
    (compute_profit y).cogs =
      y.opening_stock + (y.purchases - y.return_outwards) + y.carriage_inward
        - y.closing_stock ∧
    (compute_profit y).gross_profit =
      (compute_profit y).net_sales - (compute_profit y).cogs ∧
    (compute_profit y).indirect_exp =
      y.salaries + y.rent_utilities + y.admin_misc + y.depreciation_it
        + y.finance_costs + y.other_expenses ∧
    (compute_profit y).net_profit =
      (compute_profit y).gross_profit + y.other_income
        - (compute_profit y).indirect_exp := by
  simp [compute_profit]

/-- C6: the closing balance computed by capital_t_format equals
max(0, (opening + profit + additional investment) − drawings) and is
never negative. -/
theorem capital_closing_correct (opening profit addl_invest drawings : ℚ) :
    (capital_t_format opening profit addl_invest drawings).closing =
      max 0 ((opening + profit + addl_invest) - drawings) ∧
    0 ≤ (capital_t_format opening profit addl_invest drawings).closing := by
  constructor
  · simp [capital_t_format, sumAmts]
    ring_nf
  · simp [capital_t_format]

/-- C2 counterexample: with opening = profit = additional investment
= 0 and drawings = 100 the capital statement is not balanced: the
debit side sums to 100 while the credit side sums to 0, because the
closing balance is floored at zero. -/
theorem capital_unbalanced_example :
    sumAmts (capital_t_format 0 0 0 100).dr ≠ sumAmts (capital_t_format 0 0 0 100).cr := by
  norm_num [capital_t_format, sumAmts, max_def]

/-- C2 (amended): the capital statement is balanced — after appending
the closing-balance debit entry the debit side sums to the credit
side — whenever drawings do not exceed opening + profit + additional
investment (so the zero floor on the closing balance is inactive). -/
theorem capital_balanced (opening profit addl_invest drawings : ℚ)
    (h : drawings ≤ opening + profit + addl_invest) :
    sumAmts (capital_t_format opening profit addl_invest drawings).dr =
      sumAmts (capital_t_format opening profit addl_invest drawings).cr := by
  simp only [capital_t_format, sumAmts, List.map_append, List.map_cons, List.map_nil,
    List.sum_append, List.sum_cons, List.sum_nil]
  rw [max_eq_right (by linarith : (0:ℚ) ≤ opening + (profit + (addl_invest + 0)) - (drawings + 0))]
  ring

/-- C2 witness: the amended balance property at a concrete input. -/
theorem capital_balanced_witness :
    sumAmts (capital_t_format 50000 20000 5000 10000).dr =
      sumAmts (capital_t_format 50000 20000 5000 10000).cr :=
  capital_balanced 50000 20000 5000 10000 (by norm_num)

/-- C4: the balance sheet produced by balance_sheet_t_format always
has equal sides, the natural lists are kept unchanged with no
balancing entry when their sums already match, and otherwise exactly
one balancing entry equal to the difference is appended to the
smaller side. -/
theorem balance_sheet_balanced (capital : ℚ) (y : YearIn) :
    sumAmts (balance_sheet_t_format capital y).liabilities =
      sumAmts (balance_sheet_t_format capital y).assets ∧
    (sumAmts (bs_liab_raw capital y) = sumAmts (bs_assets_raw y) →
      balance_sheet_t_format capital y =
        { liabilities := bs_liab_raw capital y, assets := bs_assets_raw y }) ∧
    (sumAmts (bs_assets_raw y) < sumAmts (bs_liab_raw capital y) →
      balance_sheet_t_format capital y =
        { liabilities := bs_liab_raw capital y,
          assets := bs_assets_raw y ++
            [("Balancing Figure (Assets)",
              sumAmts (bs_liab_raw capital y) - sumAmts (bs_assets_raw y))] }) ∧
    (sumAmts (bs_liab_raw capital y) < sumAmts (bs_assets_raw y) →
      balance_sheet_t_format capital y =
        { liabilities := bs_liab_raw capital y ++
            [("Balancing Figure (Liabilities)",
              sumAmts (bs_assets_raw y) - sumAmts (bs_liab_raw capital y))],
          assets := bs_assets_raw y }) := by
  simp only [balance_sheet_t_format]
  split_ifs with h1 h2
  · refine ⟨?_, fun he => absurd he (by linarith), fun _ => rfl, fun hl => absurd hl (by linarith)⟩
    simp only [sumAmts, List.map_append, List.sum_append, List.map_cons, List.map_nil,
      List.sum_cons, List.sum_nil]
    have : sumAmts (bs_assets_raw y) + (sumAmts (bs_liab_raw capital y) - sumAmts (bs_assets_raw y))
        = sumAmts (bs_liab_raw capital y) := by ring
    simp only [sumAmts] at this
    linarith [this]
  · refine ⟨?_, fun he => absurd he (by linarith), fun ha => absurd ha (by linarith), fun _ => rfl⟩
    simp only [sumAmts, List.map_append, List.sum_append, List.map_cons, List.map_nil,
      List.sum_cons, List.sum_nil]
    have : sumAmts (bs_liab_raw capital y) + (sumAmts (bs_assets_raw y) - sumAmts (bs_liab_raw capital y))
        = sumAmts (bs_assets_raw y) := by ring
    simp only [sumAmts] at this
    linarith [this]
  · have he : sumAmts (bs_liab_raw capital y) = sumAmts (bs_assets_raw y) := le_antisymm
      (not_lt.mp h1) (not_lt.mp h2)
    exact ⟨he, fun _ => rfl, fun ha => absurd ha (by linarith), fun hl => absurd hl (by linarith)⟩

/-- C4 witness: the balancing behaviour at a concrete input where the
liabilities side is larger. -/
theorem balance_sheet_balanced_witness :
    sumAmts (balance_sheet_t_format 1000 {}).liabilities =
      sumAmts (balance_sheet_t_format 1000 {}).assets ∧
    balance_sheet_t_format 1000 {} =
      { liabilities := bs_liab_raw 1000 {},
        assets := bs_assets_raw {} ++
          [("Balancing Figure (Assets)",
            sumAmts (bs_liab_raw 1000 {}) - sumAmts (bs_assets_raw {}))] } :=
  ⟨(balance_sheet_balanced 1000 {}).1,
   (balance_sheet_balanced 1000 {}).2.2.1 (by norm_num [sumAmts, bs_liab_raw, bs_assets_raw])⟩

/-- C7: apply_growth multiplies every one of the 24 numeric fields by
exactly 1 + g/100 for every growth percentage g in [0, 100], and
apply_growth y 0 = y. -/
theorem apply_growth_scales (y : YearIn) (g : ℚ) (_hg0 : 0 ≤ g) (_hg1 : g ≤ 100) :
    ((apply_growth y g).turnover = y.turnover * (1 + g/100) ∧
     (apply_growth y g).other_income = y.other_income * (1 + g/100) ∧
     (apply_growth y g).opening_stock = y.opening_stock * (1 + g/100) ∧
     (apply_growth y g).purchases = y.purchases * (1 + g/100) ∧
     (apply_growth y g).return_inwards = y.return_inwards * (1 + g/100) ∧
     (apply_growth y g).return_outwards = y.return_outwards * (1 + g/100) ∧
     (apply_growth y g).carriage_inward = y.carriage_inward * (1 + g/100) ∧
     (apply_growth y g).closing_stock = y.closing_stock * (1 + g/100) ∧
     (apply_growth y g).salaries = y.salaries * (1 + g/100) ∧
     (apply_growth y g).rent_utilities = y.rent_utilities * (1 + g/100) ∧
     (apply_growth y g).admin_misc = y.admin_misc * (1 + g/100) ∧
     (apply_growth y g).depreciation_it = y.depreciation_it * (1 + g/100) ∧
     (apply_growth y g).finance_costs = y.finance_costs * (1 + g/100) ∧
     (apply_growth y g).other_expenses = y.other_expenses * (1 + g/100) ∧
     (apply_growth y g).capital_open = y.capital_open * (1 + g/100) ∧
     (apply_growth y g).additional_investment = y.additional_investment * (1 + g/100) ∧
     (apply_growth y g).drawings = y.drawings * (1 + g/100) ∧
     (apply_growth y g).loans = y.loans * (1 + g/100) ∧
     (apply_growth y g).payables = y.payables * (1 + g/100) ∧
     (apply_growth y g).receivables = y.receivables * (1 + g/100) ∧
     (apply_growth y g).fixed_assets = y.fixed_assets * (1 + g/100) ∧
     (apply_growth y g).cash_bank = y.cash_bank * (1 + g/100) ∧
     (apply_growth y g).other_assets = y.other_assets * (1 + g/100) ∧
     (apply_growth y g).other_liab = y.other_liab * (1 + g/100)) ∧
    apply_growth y 0 = y := by
  refine ⟨?_, ?_⟩
  · simp [apply_growth]
  · cases y
    simp [apply_growth]

/-- C7 witness: the scaling property at a concrete YearFigures and
growth percentage. -/
theorem apply_growth_scales_witness :
    ((apply_growth { turnover := 200 } 10).turnover = 200 * (1 + 10/100) ∧
     apply_growth { turnover := (200:ℚ) } 0 = { turnover := 200 }) :=
  ⟨(apply_growth_scales { turnover := 200 } 10 (by norm_num) (by norm_num)).1.1,
   (apply_growth_scales { turnover := 200 } 10 (by norm_num) (by norm_num)).2⟩

/-- C1 counterexample: at income 1,500,000 + 2·10^18 the code's tax
differs from the claimed slab table whose last slab taxes the whole
remainder at 30%, because the code's last slab has the finite width
10^18 and income beyond it is left untaxed. -/
theorem simple_tax_remainder_counterexample :
    simple_tax (1500000 + 2 * 10^18) ≠ simple_tax_spec (1500000 + 2 * 10^18) := by
  norm_num [simple_tax, simple_tax_spec, slab_walk, slab_walk_rem, slabs, spec_slabs,
    round_inr, min_def, max_def, TaxResult.mk.injEq]

/-- C1 (amended): for every income I up to 1,500,000 + 10^18 (the sum
of all six slab widths in the code) simple_tax agrees exactly with the
claimed computation — clamp to max(0, I), walk the ordered slab table
with the remainder taxed at 30%, cess = 4% of tax, total = tax + cess,
all rounded; moreover simple_tax(1,000,000) = {50,000, 2,000, 52,000}
and simple_tax(I) = {0, 0, 0} for every I ≤ 0. -/
theorem simple_tax_matches_spec_table :
    (∀ I : ℚ, I ≤ 1500000 + 10^18 → simple_tax I = simple_tax_spec I) ∧
    simple_tax 1000000 = ⟨50000, 2000, 52000⟩ ∧
    (∀ I : ℚ, I ≤ 0 → simple_tax I = ⟨0, 0, 0⟩) := by
  refine ⟨?_, ?_, ?_⟩
  · intro I hI
    have hkey : slab_walk slabs (max 0 I) =
        (slab_walk_rem spec_slabs (max 0 I)).1 +
          (slab_walk_rem spec_slabs (max 0 I)).2 * (30/100) := by
      rw [slabs_eq_append, slab_walk_append_last (10^18) (30/100) (by norm_num)]
      have hb : (slab_walk_rem spec_slabs (max 0 I)).2 ≤ 10^18 := by
        have h1 := slab_walk_rem_snd_le spec_slabs (max 0 I)
        rw [spec_slabs_width_sum] at h1
        have h2 : max 0 I ≤ 1500000 + 10^18 := max_le (by norm_num) hI
        have h3 : max (max 0 I - 1500000) 0 ≤ 10^18 := max_le (by linarith) (by norm_num)
        linarith
      rw [min_eq_left hb]
    simp only [simple_tax, simple_tax_spec]
    rw [hkey]
  · norm_num [simple_tax, slab_walk, slabs, round_inr, min_def, max_def, TaxResult.mk.injEq]
  · intro I hI
    have hTI : max 0 I = 0 := max_eq_left hI
    simp only [simple_tax, hTI]
    norm_num [slab_walk, slabs, round_inr, min_def, TaxResult.mk.injEq]

/-- C1 witness: the amended agreement at income 1,000,000 and the
zero result at the negative income −50,000. -/
theorem simple_tax_matches_spec_table_witness :
    simple_tax 1000000 = simple_tax_spec 1000000 ∧
    simple_tax (-50000) = ⟨0, 0, 0⟩ :=
  ⟨simple_tax_matches_spec_table.1 1000000 (by norm_num),
   simple_tax_matches_spec_table.2.2 (-50000) (by norm_num)⟩

/-- C8: the tax output of simple_tax is non-decreasing in income, and
the per-slab rates of the table, taken in order, are non-decreasing
(the claim's reading of convexity at slab boundaries). -/
theorem simple_tax_monotone_and_rates_sorted :
    (∀ I1 I2 : ℚ, I1 < I2 → (simple_tax I1).tax ≤ (simple_tax I2).tax) ∧
    List.Chain' (fun r1 r2 => r1 ≤ r2) (slabs.map Prod.snd) := by
  constructor
  · intro I1 I2 h
    simp only [simple_tax]
    exact round_inr_mono (slab_walk_mono slabs slabs_nonneg _ _ (le_max_left _ _)
      (max_le_max le_rfl (le_of_lt h)))
  · norm_num [slabs, List.chain'_cons]

/-- C8 witness: monotonicity at the concrete pair 100,000 < 500,000. -/
theorem simple_tax_monotone_witness :
    (simple_tax 100000).tax ≤ (simple_tax 500000).tax :=
  simple_tax_monotone_and_rates_sorted.1 100000 500000 (by norm_num)

/-- C10: for every income beyond 1,500,000 + 10^18 (the sum of all
six slab widths) simple_tax returns the same result as at that
threshold: income past the finite last slab incurs no additional
tax. -/
theorem simple_tax_saturates (I : ℚ) (h : 1500000 + 10^18 < I) :
    simple_tax I = simple_tax (1500000 + 10^18) := by
  have h1 : max 0 I = I := max_eq_right (by linarith)
  have h2 : max 0 (1500000 + 10^18 : ℚ) = 1500000 + 10^18 := max_eq_right (by norm_num)
  simp only [simple_tax, h1, h2]
  rw [slab_walk_saturate I (le_of_lt h), slab_walk_saturate _ le_rfl]

/-- C10 witness: saturation one unit past the threshold. -/
theorem simple_tax_saturates_witness :
    simple_tax (1500000 + 10^18 + 1) = simple_tax (1500000 + 10^18) :=
  simple_tax_saturates (1500000 + 10^18 + 1) (by norm_num)

/-- C3: when both years are present, continuity enabled overwrites
Year-2's opening stock with Year-1's closing stock regardless of the
supplied value, and Year-2's capital statement uses Year-1's closing
capital (computed by capital_t_format) as its opening balance rather
than the supplied Year-2 capital_open; with continuity disabled the
supplied Year-2 figures and capital_open are used unchanged. -/
theorem continuity_rules (p : ExcelRequest) (y : YearIn) (hy : p.y2 = some y) :
    (p.enforce_continuity = true →
       continuity_y2 p = some { y with opening_stock := p.y1.closing_stock } ∧
       (full_pipeline p).y2 = some { y with opening_stock := p.y1.closing_stock } ∧
       year2_opening_capital p = some (cap1 p).closing ∧
       (full_pipeline p).cap2 = some (capital_t_format (cap1 p).closing
         (round_inr (pl_t_format { y with opening_stock := p.y1.closing_stock }).net_profit)
         y.additional_investment y.drawings)) ∧
    (p.enforce_continuity = false →
       continuity_y2 p = some y ∧
       (full_pipeline p).y2 = some y ∧
       year2_opening_capital p = some y.capital_open ∧
       (full_pipeline p).cap2 = some (capital_t_format y.capital_open
         (round_inr (pl_t_format y).net_profit)
         y.additional_investment y.drawings)) := by
  have hres : resolve_y2 p = some y := by simp [resolve_y2, hy]
  constructor
  · intro hc
    have hcont : continuity_y2 p = some { y with opening_stock := p.y1.closing_stock } := by
      simp [continuity_y2, hres, hc]
    have hoc : year2_opening_capital p = some (cap1 p).closing := by
      simp [year2_opening_capital, hcont, hc]
    refine ⟨hcont, ?_, hoc, ?_⟩
    · simp [full_pipeline, hcont, hoc]
    · simp [full_pipeline, hcont, hoc]
  · intro hc
    have hcont : continuity_y2 p = some y := by
      simp [continuity_y2, hres, hc]
    have hoc : year2_opening_capital p = some y.capital_open := by
      simp [year2_opening_capital, hcont, hc]
    refine ⟨hcont, ?_, hoc, ?_⟩
    · simp [full_pipeline, hcont, hoc]
    · simp [full_pipeline, hcont, hoc]

/-- C3 witness: the continuity substitutions on a concrete request
whose supplied Year-2 opening stock (999) disagrees with Year-1's
closing stock (80,000). -/
theorem continuity_rules_witness :
    continuity_y2 sample_request =
      some { sample_y2 with opening_stock := sample_request.y1.closing_stock } ∧
    year2_opening_capital sample_request = some (cap1 sample_request).closing :=
  ⟨((continuity_rules sample_request sample_y2 rfl).1 rfl).1,
   ((continuity_rules sample_request sample_y2 rfl).1 rfl).2.2.1⟩

/-- C9: the computation core is deterministic — the full pipeline and
each of its component operations are pure functions, so identical
inputs always give identical derived numeric results. -/
theorem pipeline_deterministic (p q : ExcelRequest) (h : p = q) :
    full_pipeline p = full_pipeline q ∧
    compute_profit p.y1 = compute_profit q.y1 ∧
    apply_growth p.y1 p.growth_pct = apply_growth q.y1 q.growth_pct ∧
    continuity_y2 p = continuity_y2 q ∧
    simple_tax (np1 p) = simple_tax (np1 q) := by
  rw [h]
  exact ⟨rfl, rfl, rfl, rfl, rfl⟩

/-- C9 witness: determinism of the pipeline on a concrete request. -/
theorem pipeline_deterministic_witness :
    full_pipeline sample_request = full_pipeline sample_request :=
  (pipeline_deterministic sample_request sample_request rfl).1

end TaxDraft
